import Mathlib

/-!
Shallow embedding of the ChatGateway (NestJS WebSocket gateway) of this
repository.  JavaScript `Map`s are modelled as association lists (keys are
unique in every reachable state); socket-io's connection set
(`server.sockets.sockets`) is modelled as a list of live socket ids; the
Prisma durable store is modelled as lists of call and message records; the
JWT credential attached to a socket is modelled as `Option String`
(`some uid` when `jwtService.verify` succeeds with payload.sub = uid,
`none` when it throws).  Time is in milliseconds (`Date.now()`).
-/

namespace Tbk

/-- Association-list lookup, modelling `Map.get` / `Map.has`. -/
def alGet {α : Type} : List (String × α) → String → Option α
  | [], _ => none
  | e :: rest, k => if e.1 = k then some e.2 else alGet rest k

/-- Association-list insert/replace, modelling `Map.set`. -/
def alSet {α : Type} : List (String × α) → String → α → List (String × α)
  | [], k, v => [(k, v)]
  | e :: rest, k, v => if e.1 = k then (k, v) :: rest else e :: alSet rest k v

/-- Association-list removal, modelling `Map.delete`. -/
def alErase {α : Type} (l : List (String × α)) (k : String) : List (String × α) :=
  l.filter (fun e => !(e.1 == k))

/-- Modelling `Map.has`. -/
def alHas {α : Type} (l : List (String × α)) (k : String) : Bool :=
  (alGet l k).isSome

/-- The in-memory call-info blob stored in `activeCalls`
(`{...call, callerSocketId, receiverSocketId}`). -/
structure CallInfo where
  callerId : String
  receiverId : String
  callerSocketId : String
  receiverSocketId : String
  status : String
  createdAt : Nat
  ctype : String
deriving DecidableEq, Repr

/-- A durable `Call` row (prisma model `calls`). -/
structure CallRecord where
  id : String
  ctype : String
  status : String
  duration : Option Nat
  createdAt : Nat
  endedAt : Option Nat
  callerId : String
  receiverId : String
deriving DecidableEq, Repr

/-- A durable `Message` row. -/
structure MessageRecord where
  id : String
  content : String
  mtype : String
  fileName : Option String
  fileSize : Option Nat
  fileType : Option String
  senderId : String
  receiverId : String
  isRead : Bool
  createdAt : Nat
deriving DecidableEq, Repr

/-- Outbound socket events emitted by the gateway.  `callFailedMsg` is
`call_failed {message}` and `callFailedReason` is `call_failed {reason}`;
the optional `Bool` on message events is the `isReceiverOnline` field,
absent (`none`) when the source does not spread it into the payload. -/
inductive OutEvent where
  | userOnlineStatus (userId : String) (isOnline : Bool)
  | callFailedMsg (message : String)
  | callFailedReason (reason : String)
  | callInitiated (callId : String)
  | incomingCall (callId : String) (callerId : String) (ctype : String)
  | callAccepted (callId : String)
  | callRejected (callId : String)
  | callEnded (callId : String)
  | webrtcOffer (callId : String) (offer : String)
  | webrtcAnswer (callId : String) (answer : String)
  | webrtcIce (callId : String) (candidate : String)
  | fileWebrtcOffer (userId : String) (offer : String)
  | fileWebrtcAnswer (userId : String) (answer : String)
  | fileWebrtcIce (userId : String) (candidate : String)
  | receiveMessage (m : MessageRecord) (isNewMessage : Bool) (isReceiverOnline : Option Bool)
  | messageSent (m : MessageRecord) (isReceiverOnline : Option Bool)
  | messagesHistory (ms : List MessageRecord)
  | messagesMarkedRead (senderId : String) (receiverId : String)
  | unreadCounts (counts : List (String × Nat))
  | errorMsg (message : String)
deriving DecidableEq, Repr

/-- The gateway's process-wide state plus the external durable store. -/
structure World where
  connectedUsers : List (String × String)
  userActiveChats : List (String × String)
  activeCalls : List (String × CallInfo)
  liveSockets : List String
  dbCalls : List CallRecord
  dbMessages : List MessageRecord
deriving DecidableEq, Repr

/-- Result of processing one inbound event: the new world and the targeted
emits `(socketId, event)` in emission order. -/
structure StepOut where
  w : World
  emits : List (String × OutEvent)
deriving DecidableEq, Repr

/-- A connected client socket: its id and the (pre-verified) credential,
`none` when `jwtService.verify(token)` would throw. -/
structure Client where
  id : String
  auth : Option String
deriving DecidableEq, Repr

/-- JS truthiness-plus-`isSocketConnected` check:
`socketId && this.isSocketConnected(socketId)`. -/
def sockOk (live : List String) (s : String) : Bool :=
  (!(s == "")) && live.contains s

/-- `prisma.call.update({where:{id}, data:{status:'accepted'}})`. -/
def dbAcceptCall (db : List CallRecord) (cid : String) : List CallRecord :=
  db.map (fun r => if r.id = cid then { r with status := "accepted" } else r)

/-- `prisma.call.update({where:{id}, data:{status:'rejected', endedAt}})`. -/
def dbRejectCall (db : List CallRecord) (cid : String) (now : Nat) : List CallRecord :=
  db.map (fun r => if r.id = cid then { r with status := "rejected", endedAt := some now } else r)

/-- `prisma.call.update({where:{id}, data:{status:'ended', endedAt, duration}})`. -/
def dbEndCall (db : List CallRecord) (cid : String) (now dur : Nat) : List CallRecord :=
  db.map (fun r =>
    if r.id = cid then { r with status := "ended", endedAt := some now, duration := some dur }
    else r)

/-- The durable update in `handleUserDisconnectFromCalls` (no duration). -/
def dbEndByDisconnect (db : List CallRecord) (cid : String) (now : Nat) : List CallRecord :=
  db.map (fun r => if r.id = cid then { r with status := "ended", endedAt := some now } else r)

/-- Per-entry body of `updateUserSocketInActiveCalls`: note the `else if`,
so when caller and receiver are the same user only the caller side moves. -/
def updCallSocket (u s : String) (call : CallInfo) : CallInfo :=
  if call.callerId = u then { call with callerSocketId := s }
  else if call.receiverId = u then { call with receiverSocketId := s }
  else call

/-- `updateUserSocketInActiveCalls(userId, newSocketId)`. -/
def updateUserSocketInActiveCalls (calls : List (String × CallInfo)) (u s : String) :
    List (String × CallInfo) :=
  calls.map (fun e => (e.1, updCallSocket u s e.2))

/-- One step of `prisma.message.groupBy` aggregation. -/
def bumpCount (l : List (String × Nat)) (k : String) : List (String × Nat) :=
  match l with
  | [] => [(k, 1)]
  | e :: rest => if e.1 = k then (k, e.2 + 1) :: rest else e :: bumpCount rest k

/-- Unread counts grouped by sender for one receiver. -/
def unreadCountsFor (msgs : List MessageRecord) (userId : String) : List (String × Nat) :=
  msgs.foldl
    (fun acc m => if m.receiverId = userId ∧ m.isRead = false then bumpCount acc m.senderId else acc)
    []

/-- `sendUnreadCounts(userId)`: emits the aggregate to the user's current
socket when one is bound. -/
def sendUnreadCounts (w : World) (userId : String) : List (String × OutEvent) :=
  match alGet w.connectedUsers userId with
  | some sid => [(sid, OutEvent.unreadCounts (unreadCountsFor w.dbMessages userId))]
  | none => []

/-- The scan in `handleDisconnect`: first user whose bound socket is the
closed one. -/
def findUserBySocket : List (String × String) → String → Option String
  | [], _ => none
  | e :: rest, sid => if e.2 = sid then some e.1 else findUserBySocket rest sid

/-- `call.callerId === userId || call.receiverId === userId`. -/
def involvesUser (u : String) (call : CallInfo) : Bool :=
  call.callerId == u || call.receiverId == u

/-- The counterparty socket chosen in `handleUserDisconnectFromCalls`. -/
def otherSock (u : String) (call : CallInfo) : String :=
  if call.callerId == u then call.receiverSocketId else call.callerSocketId

/-- The loop of `handleUserDisconnectFromCalls`: for every active call
involving the user, write the durable end, notify the live counterparty,
and drop the entry. -/
def endUserCalls (u : String) (now : Nat) (live : List String) :
    List (String × CallInfo) → List CallRecord →
    List (String × CallInfo) × List CallRecord × List (String × OutEvent)
  | [], db => ([], db, [])
  | e :: rest, db =>
    if involvesUser u e.2 then
      let res := endUserCalls u now live rest (dbEndByDisconnect db e.1 now)
      (res.1, res.2.1,
        (if sockOk live (otherSock u e.2) then [(otherSock u e.2, OutEvent.callEnded e.1)] else [])
          ++ res.2.2)
    else
      let res := endUserCalls u now live rest db
      (e :: res.1, res.2.1, res.2.2)

/-- `handleUserDisconnectFromCalls(userId)`. -/
def handleUserDisconnectFromCalls (w : World) (u : String) (now : Nat) : StepOut :=
  let res := endUserCalls u now w.liveSockets w.activeCalls w.dbCalls
  { w := { w with activeCalls := res.1, dbCalls := res.2.1 }, emits := res.2.2 }

/-- `handleConnection`: the transport has registered the socket; on
verification failure the socket is disconnected again, otherwise the
presence binding is overwritten, active calls are re-pointed at the new
socket, and unread counts are pushed. -/
def handleConnection (w : World) (client : Client) : StepOut :=
  let w0 := { w with
    liveSockets := if w.liveSockets.contains client.id then w.liveSockets
                   else w.liveSockets ++ [client.id] }
  match client.auth with
  | none =>
    { w := { w0 with liveSockets := w0.liveSockets.filter (fun s => !(s == client.id)) },
      emits := [] }
  | some userId =>
    let w1 := { w0 with
      connectedUsers := alSet w0.connectedUsers userId client.id,
      activeCalls := updateUserSocketInActiveCalls w0.activeCalls userId client.id }
    { w := w1, emits := sendUnreadCounts w1 userId }

/-- The synchronous part of `handleDisconnect`: the transport removes the
socket from the live set; the loop finds the bound user (if any) and a
grace-period timer keyed by that user and the closed socket is scheduled
(returned as the second component). -/
def handleDisconnect (w : World) (closedSid : String) : World × Option String :=
  ({ w with liveSockets := w.liveSockets.filter (fun s => !(s == closedSid)) },
   findUserBySocket w.connectedUsers closedSid)

/-- The `setTimeout` callback in `handleDisconnect`: only if the binding
still points at the closed socket does it unbind presence, clear the
active chat and end the user's calls. -/
def gracePeriodFire (w : World) (u closedSid : String) (now : Nat) : StepOut :=
  match alGet w.connectedUsers u with
  | some current =>
    if current = closedSid then
      handleUserDisconnectFromCalls
        { w with
          connectedUsers := alErase w.connectedUsers u,
          userActiveChats := alErase w.userActiveChats u } u now
    else { w := w, emits := [] }
  | none => { w := w, emits := [] }

/-- `check_user_online`: pure presence lookup, no credential check. -/
def handleCheckUserOnline (w : World) (client : Client) (userId : String) : StepOut :=
  { w := w,
    emits := [(client.id, OutEvent.userOnlineStatus userId (alHas w.connectedUsers userId))] }

/-- `initiate_call`. -/
def handleInitiateCall (w : World) (client : Client) (receiverId ctype : String)
    (freshCallId : String) (now : Nat) : StepOut :=
  match client.auth with
  | none => { w := w, emits := [(client.id, OutEvent.callFailedMsg "Failed to initiate call")] }
  | some callerId =>
    match alGet w.connectedUsers receiverId with
    | none => { w := w, emits := [(client.id, OutEvent.callFailedReason "User is offline")] }
    | some receiverSocketId =>
      let callRec : CallRecord :=
        { id := freshCallId, ctype := ctype, status := "initiated", duration := none,
          createdAt := now, endedAt := none, callerId := callerId, receiverId := receiverId }
      let info : CallInfo :=
        { callerId := callerId, receiverId := receiverId, callerSocketId := client.id,
          receiverSocketId := receiverSocketId, status := "initiated", createdAt := now,
          ctype := ctype }
      { w := { w with
          dbCalls := w.dbCalls ++ [callRec],
          activeCalls := alSet w.activeCalls freshCallId info },
        emits := [(client.id, OutEvent.callInitiated freshCallId),
                  (receiverSocketId, OutEvent.incomingCall freshCallId callerId ctype)] }

/-- `accept_call`: no credential check and no check that the acting session
is the receiver's; the acting socket becomes the stored receiver socket. -/
def handleAcceptCall (w : World) (client : Client) (callId : String) : StepOut :=
  match alGet w.activeCalls callId with
  | none => { w := w, emits := [(client.id, OutEvent.callFailedMsg "Call not found")] }
  | some call =>
    let updatedCall := { call with receiverSocketId := client.id, status := "accepted" }
    { w := { w with
        dbCalls := dbAcceptCall w.dbCalls callId,
        activeCalls := alSet w.activeCalls callId updatedCall },
      emits :=
        (if sockOk w.liveSockets call.callerSocketId
         then [(call.callerSocketId, OutEvent.callAccepted callId)] else [])
          ++ [(client.id, OutEvent.callAccepted callId)] }

/-- `reject_call`: silent no-op when the call is unknown; otherwise no
status guard at all — the durable row is set to rejected whatever the
current status, the live caller is notified, and the entry is dropped. -/
def handleRejectCall (w : World) (client : Client) (callId : String) (now : Nat) : StepOut :=
  match alGet w.activeCalls callId with
  | none => { w := w, emits := [] }
  | some call =>
    { w := { w with
        dbCalls := dbRejectCall w.dbCalls callId now,
        activeCalls := alErase w.activeCalls callId },
      emits :=
        if sockOk w.liveSockets call.callerSocketId
        then [(call.callerSocketId, OutEvent.callRejected callId)] else [] }

/-- `end_call`: duration is computed at end time from the stored creation
time, both live participant sockets are notified, entry dropped. -/
def handleEndCall (w : World) (client : Client) (callId : String) (now : Nat) : StepOut :=
  match alGet w.activeCalls callId with
  | none => { w := w, emits := [] }
  | some call =>
    let duration := (now - call.createdAt) / 1000
    { w := { w with
        dbCalls := dbEndCall w.dbCalls callId now duration,
        activeCalls := alErase w.activeCalls callId },
      emits :=
        ([call.callerSocketId, call.receiverSocketId].filter (fun s => sockOk w.liveSockets s)).map
          (fun s => (s, OutEvent.callEnded callId)) }

/-- `webrtc_offer`: always targets the stored receiver socket. -/
def handleWebRTCOffer (w : World) (client : Client) (callId offer : String) : StepOut :=
  match alGet w.activeCalls callId with
  | none => { w := w, emits := [(client.id, OutEvent.callFailedReason "Call not found")] }
  | some call =>
    if sockOk w.liveSockets call.receiverSocketId then
      { w := w, emits := [(call.receiverSocketId, OutEvent.webrtcOffer callId offer)] }
    else
      { w := w, emits := [(client.id, OutEvent.callFailedReason "Receiver disconnected")] }

/-- `webrtc_answer`: always targets the stored caller socket. -/
def handleWebRTCAnswer (w : World) (client : Client) (callId answer : String) : StepOut :=
  match alGet w.activeCalls callId with
  | none => { w := w, emits := [(client.id, OutEvent.callFailedReason "Call not found")] }
  | some call =>
    if sockOk w.liveSockets call.callerSocketId then
      { w := w, emits := [(call.callerSocketId, OutEvent.webrtcAnswer callId answer)] }
    else
      { w := w, emits := [(client.id, OutEvent.callFailedReason "Caller disconnected")] }

/-- `webrtc_ice_candidate`: the only relay that picks the target by
comparing the sending socket to the stored caller socket; dropped silently
when the target is not live. -/
def handleWebRTCIceCandidate (w : World) (client : Client) (callId candidate : String) :
    StepOut :=
  match alGet w.activeCalls callId with
  | none => { w := w, emits := [] }
  | some call =>
    let target :=
      if client.id == call.callerSocketId then call.receiverSocketId else call.callerSocketId
    if sockOk w.liveSockets target then
      { w := w, emits := [(target, OutEvent.webrtcIce callId candidate)] }
    else { w := w, emits := [] }

/-- `file_webrtc_offer`: verified relay by target user identity. -/
def handleFileWebRTCOffer (w : World) (client : Client) (targetUserId offer : String) : StepOut :=
  match client.auth with
  | none => { w := w, emits := [] }
  | some senderId =>
    match alGet w.connectedUsers targetUserId with
    | some tsid => { w := w, emits := [(tsid, OutEvent.fileWebrtcOffer senderId offer)] }
    | none => { w := w, emits := [] }

/-- `file_webrtc_answer`. -/
def handleFileWebRTCAnswer (w : World) (client : Client) (targetUserId answer : String) :
    StepOut :=
  match client.auth with
  | none => { w := w, emits := [] }
  | some senderId =>
    match alGet w.connectedUsers targetUserId with
    | some tsid => { w := w, emits := [(tsid, OutEvent.fileWebrtcAnswer senderId answer)] }
    | none => { w := w, emits := [] }

/-- `file_webrtc_ice_candidate`. -/
def handleFileWebRTCIceCandidate (w : World) (client : Client) (targetUserId candidate : String) :
    StepOut :=
  match client.auth with
  | none => { w := w, emits := [] }
  | some senderId =>
    match alGet w.connectedUsers targetUserId with
    | some tsid => { w := w, emits := [(tsid, OutEvent.fileWebrtcIce senderId candidate)] }
    | none => { w := w, emits := [] }

/-- `send_message` (text): persist, push to the receiver if online with an
unread refresh, then ack the sender with the bare persisted message. -/
def handleMessage (w : World) (client : Client) (receiverId content : String)
    (freshId : String) (now : Nat) : StepOut :=
  match client.auth with
  | none => { w := w, emits := [(client.id, OutEvent.errorMsg "Failed to send message")] }
  | some senderId =>
    let m : MessageRecord :=
      { id := freshId, content := content, mtype := "text", fileName := none, fileSize := none,
        fileType := none, senderId := senderId, receiverId := receiverId, isRead := false,
        createdAt := now }
    let w1 := { w with dbMessages := w.dbMessages ++ [m] }
    match alGet w1.connectedUsers receiverId with
    | some rsid =>
      { w := w1,
        emits := [(rsid, OutEvent.receiveMessage m true none)]
          ++ sendUnreadCounts w1 receiverId
          ++ [(client.id, OutEvent.messageSent m none)] }
    | none => { w := w1, emits := [(client.id, OutEvent.messageSent m none)] }

/-- `send_file_message`: same shape but the receiver-online flag is spread
into both the receiver push and the sender ack. -/
def handleFileMessage (w : World) (client : Client) (receiverId content fileName : String)
    (fileSize : Nat) (fileType : String) (freshId : String) (now : Nat) : StepOut :=
  match client.auth with
  | none => { w := w, emits := [(client.id, OutEvent.errorMsg "Failed to send file message")] }
  | some senderId =>
    let isReceiverOnline := alHas w.connectedUsers receiverId
    let m : MessageRecord :=
      { id := freshId, content := content, mtype := "file", fileName := some fileName,
        fileSize := some fileSize, fileType := some fileType, senderId := senderId,
        receiverId := receiverId, isRead := false, createdAt := now }
    let w1 := { w with dbMessages := w.dbMessages ++ [m] }
    match alGet w1.connectedUsers receiverId with
    | some rsid =>
      { w := w1,
        emits := [(rsid, OutEvent.receiveMessage m true (some isReceiverOnline))]
          ++ sendUnreadCounts w1 receiverId
          ++ [(client.id, OutEvent.messageSent m (some isReceiverOnline))] }
    | none =>
      { w := w1, emits := [(client.id, OutEvent.messageSent m (some isReceiverOnline))] }

/-- `get_messages`. -/
def handleGetMessages (w : World) (client : Client) (otherUserId : String) : StepOut :=
  match client.auth with
  | none => { w := w, emits := [(client.id, OutEvent.errorMsg "Failed to get messages")] }
  | some uid =>
    let ms := w.dbMessages.filter (fun m =>
      (m.senderId == uid && m.receiverId == otherUserId)
        || (m.senderId == otherUserId && m.receiverId == uid))
    { w := w, emits := [(client.id, OutEvent.messagesHistory ms)] }

/-- `mark_messages_read`. -/
def handleMarkMessagesRead (w : World) (client : Client) (senderId : String) : StepOut :=
  match client.auth with
  | none => { w := w, emits := [(client.id, OutEvent.errorMsg "Failed to mark messages as read")] }
  | some uid =>
    let w1 := { w with dbMessages := w.dbMessages.map (fun m =>
      if m.senderId == senderId && m.receiverId == uid && !m.isRead
      then { m with isRead := true } else m) }
    { w := w1,
      emits := sendUnreadCounts w1 uid
        ++ (match alGet w1.connectedUsers senderId with
            | some ssid => [(ssid, OutEvent.messagesMarkedRead senderId uid)]
            | none => [])
        ++ [(client.id, OutEvent.messagesMarkedRead senderId uid)] }

/-- `set_active_chat`. -/
def handleSetActiveChat (w : World) (client : Client) (receiverId : Option String) : StepOut :=
  match client.auth with
  | none => { w := w, emits := [(client.id, OutEvent.errorMsg "Failed to set active chat")] }
  | some uid =>
    match receiverId with
    | some rid =>
      let cnt := (w.dbMessages.filter (fun m =>
        m.senderId == rid && m.receiverId == uid && !m.isRead)).length
      let w1 := { w with
        userActiveChats := alSet w.userActiveChats uid rid,
        dbMessages := w.dbMessages.map (fun m =>
          if m.senderId == rid && m.receiverId == uid && !m.isRead
          then { m with isRead := true } else m) }
      { w := w1,
        emits := sendUnreadCounts w1 uid
          ++ (if cnt > 0 then
                match alGet w1.connectedUsers rid with
                | some ssid => [(ssid, OutEvent.messagesMarkedRead rid uid)]
                | none => []
              else []) }
    | none => { w := { w with userActiveChats := alErase w.userActiveChats uid }, emits := [] }

/-- `get_unread_counts`. -/
def handleGetUnreadCounts (w : World) (client : Client) : StepOut :=
  match client.auth with
  | none => { w := w, emits := [(client.id, OutEvent.errorMsg "Failed to get unread counts")] }
  | some uid => { w := w, emits := sendUnreadCounts w uid }

/-! ### Basic association-list lemmas -/

theorem alGet_set_self {α : Type} (l : List (String × α)) (k : String) (v : α) :
    alGet (alSet l k v) k = some v := by
  induction l with
  | nil => simp [alSet, alGet]
  | cons e rest ih =>
    by_cases h : e.1 = k
    · simp [alSet, h, alGet]
    · simp [alSet, h, alGet, ih]

theorem alGet_erase_self {α : Type} (l : List (String × α)) (k : String) :
    alGet (alErase l k) k = none := by
  induction l with
  | nil => rfl
  | cons e rest ih =>
    simp only [alErase, List.filter_cons] at *
    by_cases h : e.1 = k
    · simpa [h] using ih
    · simpa [h, alGet] using ih

theorem alGet_update_calls (calls : List (String × CallInfo)) (u s cid : String) :
    alGet (updateUserSocketInActiveCalls calls u s) cid
      = (alGet calls cid).map (updCallSocket u s) := by
  induction calls with
  | nil => rfl
  | cons e rest ih =>
    simp only [updateUserSocketInActiveCalls, List.map_cons, alGet] at *
    by_cases h : e.1 = cid
    · simp [h]
    · simpa [h] using ih

theorem mem_dbAcceptCall (db : List CallRecord) (cid : String) (r : CallRecord)
    (hm : r ∈ dbAcceptCall db cid) (hid : r.id = cid) : r.status = "accepted" := by
  rcases List.mem_map.mp hm with ⟨r0, _, hr⟩
  by_cases h : r0.id = cid
  · simp [h] at hr; rw [← hr]
  · simp [h] at hr; subst hr; exact absurd hid h

theorem mem_dbRejectCall (db : List CallRecord) (cid : String) (now : Nat) (r : CallRecord)
    (hm : r ∈ dbRejectCall db cid now) (hid : r.id = cid) :
    r.status = "rejected" ∧ r.endedAt = some now := by
  rcases List.mem_map.mp hm with ⟨r0, _, hr⟩
  by_cases h : r0.id = cid
  · simp [h] at hr; rw [← hr]; exact ⟨rfl, rfl⟩
  · simp [h] at hr; subst hr; exact absurd hid h

theorem mem_dbEndCall (db : List CallRecord) (cid : String) (now dur : Nat) (r : CallRecord)
    (hm : r ∈ dbEndCall db cid now dur) (hid : r.id = cid) :
    r.status = "ended" ∧ r.endedAt = some now ∧ r.duration = some dur := by
  rcases List.mem_map.mp hm with ⟨r0, _, hr⟩
  by_cases h : r0.id = cid
  · simp [h] at hr; rw [← hr]; exact ⟨rfl, rfl, rfl⟩
  · simp [h] at hr; subst hr; exact absurd hid h

/-! ### Concrete scenario worlds used by counterexamples and witnesses -/

/-- Two users online, no calls, empty store. -/
def wBase : World :=
  { connectedUsers := [("alice", "sA"), ("bob", "sB")],
    userActiveChats := [], activeCalls := [], liveSockets := ["sA", "sB"],
    dbCalls := [], dbMessages := [] }

/-- A live accepted call between alice (socket sA) and bob (socket sB). -/
def callAB : CallInfo :=
  { callerId := "alice", receiverId := "bob", callerSocketId := "sA",
    receiverSocketId := "sB", status := "accepted", createdAt := 0, ctype := "video" }

/-- Durable row matching `callAB` after acceptance. -/
def recAB : CallRecord :=
  { id := "c1", ctype := "video", status := "accepted", duration := none,
    createdAt := 0, endedAt := none, callerId := "alice", receiverId := "bob" }

/-- World with the live accepted call `c1`. -/
def wCall : World :=
  { connectedUsers := [("alice", "sA"), ("bob", "sB")],
    userActiveChats := [], activeCalls := [("c1", callAB)], liveSockets := ["sA", "sB"],
    dbCalls := [recAB], dbMessages := [] }

/-! ### C1 -/

/-- C1 counterexample: a client whose credential is invalid (`auth = none`)
sends `webrtc_offer`, `check_user_online` and `accept_call`; the offer is
still relayed to the receiver's socket, the presence answer is still
emitted, and `accept_call` still mutates the state — so it is false that
every inbound handler re-verifies the credential and that an invalid
credential causes no state change and no relayed output. -/
theorem noAuthEventProcessed_cex :
    (handleWebRTCOffer wCall ⟨"sX", none⟩ "c1" "sdp").emits
        = [("sB", OutEvent.webrtcOffer "c1" "sdp")]
  ∧ (handleCheckUserOnline wCall ⟨"sX", none⟩ "bob").emits
        = [("sX", OutEvent.userOnlineStatus "bob" true)]
  ∧ (handleAcceptCall wCall ⟨"sX", none⟩ "c1").w ≠ wCall := by
  refine ⟨rfl, rfl, ?_⟩
  decide

/-- C1 amended: only the handlers that derive the sender's identity from
the credential (`file_webrtc_*`, `send_message`, `send_file_message`,
`initiate_call`, `get_messages`, `mark_messages_read`, `set_active_chat`,
`get_unread_counts`) verify it, and on an invalid credential they cause no
state change and emit at most an error/failure ack to the acting session
(never a relayed event); `check_user_online`,
`accept_call`/`reject_call`/`end_call` and the
`webrtc_offer`/`answer`/`ice_candidate` relays never consult the
credential: their behaviour is identical for valid and invalid
credentials. -/
theorem credentialCheckCoverage (w : World) (sid uid a b fn ft : String) (oid : Option String)
    (fsz now : Nat) :
    (handleCheckUserOnline w ⟨sid, none⟩ a = handleCheckUserOnline w ⟨sid, some uid⟩ a)
  ∧ (handleAcceptCall w ⟨sid, none⟩ a = handleAcceptCall w ⟨sid, some uid⟩ a)
  ∧ (handleRejectCall w ⟨sid, none⟩ a now = handleRejectCall w ⟨sid, some uid⟩ a now)
  ∧ (handleEndCall w ⟨sid, none⟩ a now = handleEndCall w ⟨sid, some uid⟩ a now)
  ∧ (handleWebRTCOffer w ⟨sid, none⟩ a b = handleWebRTCOffer w ⟨sid, some uid⟩ a b)
  ∧ (handleWebRTCAnswer w ⟨sid, none⟩ a b = handleWebRTCAnswer w ⟨sid, some uid⟩ a b)
  ∧ (handleWebRTCIceCandidate w ⟨sid, none⟩ a b
        = handleWebRTCIceCandidate w ⟨sid, some uid⟩ a b)
  ∧ (handleFileWebRTCOffer w ⟨sid, none⟩ a b = { w := w, emits := [] })
  ∧ (handleFileWebRTCAnswer w ⟨sid, none⟩ a b = { w := w, emits := [] })
  ∧ (handleFileWebRTCIceCandidate w ⟨sid, none⟩ a b = { w := w, emits := [] })
  ∧ (handleMessage w ⟨sid, none⟩ a b b now
        = { w := w, emits := [(sid, OutEvent.errorMsg "Failed to send message")] })
  ∧ (handleFileMessage w ⟨sid, none⟩ a b fn fsz ft b now
        = { w := w, emits := [(sid, OutEvent.errorMsg "Failed to send file message")] })
  ∧ (handleInitiateCall w ⟨sid, none⟩ a b b now
        = { w := w, emits := [(sid, OutEvent.callFailedMsg "Failed to initiate call")] })
  ∧ (handleGetMessages w ⟨sid, none⟩ a
        = { w := w, emits := [(sid, OutEvent.errorMsg "Failed to get messages")] })
  ∧ (handleMarkMessagesRead w ⟨sid, none⟩ a
        = { w := w, emits := [(sid, OutEvent.errorMsg "Failed to mark messages as read")] })
  ∧ (handleSetActiveChat w ⟨sid, none⟩ oid
        = { w := w, emits := [(sid, OutEvent.errorMsg "Failed to set active chat")] })
  ∧ (handleGetUnreadCounts w ⟨sid, none⟩
        = { w := w, emits := [(sid, OutEvent.errorMsg "Failed to get unread counts")] }) :=
  ⟨rfl, rfl, rfl, rfl, rfl, rfl, rfl, rfl, rfl, rfl, rfl, rfl, rfl, rfl, rfl, rfl, rfl⟩

/-! ### C4 -/

/-- C4: `accept_call`, `reject_call` and `end_call` on a call identity
absent from the live Call Table leave the whole state (Call Table and
durable store included) unchanged, re-insert nothing, and emit no
`call_ended`; moreover after any `end_call` the identity is absent from
the table, so the same no-ops apply to every subsequent retry. -/
theorem terminalNoop (w w2 : World) (c c2 : Client) (cid : String) (now now2 : Nat)
    (h : alGet w.activeCalls cid = none) :
    handleAcceptCall w c cid
        = { w := w, emits := [(c.id, OutEvent.callFailedMsg "Call not found")] }
  ∧ handleRejectCall w c cid now = { w := w, emits := [] }
  ∧ handleEndCall w c cid now = { w := w, emits := [] }
  ∧ alGet (handleEndCall w2 c2 cid now2).w.activeCalls cid = none := by
  refine ⟨?_, ?_, ?_, ?_⟩
  · simp [handleAcceptCall, h]
  · simp [handleRejectCall, h]
  · simp [handleEndCall, h]
  · cases h2 : alGet w2.activeCalls cid with
    | none => simp [handleEndCall, h2]
    | some call => simp [handleEndCall, h2, alGet_erase_self]

/-- C4 witness: the no-ops at a concrete world where call `c9` is unknown. -/
theorem terminalNoop_wit :
    handleAcceptCall wCall ⟨"sB", some "bob"⟩ "c9"
        = { w := wCall, emits := [("sB", OutEvent.callFailedMsg "Call not found")] }
  ∧ handleRejectCall wCall ⟨"sB", some "bob"⟩ "c9" 7 = { w := wCall, emits := [] }
  ∧ handleEndCall wCall ⟨"sB", some "bob"⟩ "c9" 7 = { w := wCall, emits := [] }
  ∧ alGet (handleEndCall wCall ⟨"sB", some "bob"⟩ "c9" 7).w.activeCalls "c9" = none :=
  terminalNoop wCall wCall ⟨"sB", some "bob"⟩ ⟨"sB", some "bob"⟩ "c9" 7 7 (by decide)

/-! ### C10 -/

/-- C10: for an unknown call identity, `reject_call` and `end_call` emit
nothing at all, whereas `accept_call` emits `call_failed` with message
"Call not found" to the acting session — the three terminal-state no-ops
are not uniform at the public interface. -/
theorem terminalNoopAsymmetry (w : World) (c : Client) (cid : String) (now : Nat)
    (h : alGet w.activeCalls cid = none) :
    (handleRejectCall w c cid now).emits = []
  ∧ (handleEndCall w c cid now).emits = []
  ∧ (handleRejectCall w c cid now).w = w
  ∧ (handleEndCall w c cid now).w = w
  ∧ (handleAcceptCall w c cid).emits = [(c.id, OutEvent.callFailedMsg "Call not found")]
  ∧ (handleAcceptCall w c cid).w = w := by
  refine ⟨?_, ?_, ?_, ?_, ?_, ?_⟩ <;>
    simp [handleRejectCall, handleEndCall, handleAcceptCall, h]

/-- C10 witness: concrete unknown call id `zz`. -/
theorem terminalNoopAsymmetry_wit :
    (handleRejectCall wBase ⟨"sA", some "alice"⟩ "zz" 3).emits = []
  ∧ (handleEndCall wBase ⟨"sA", some "alice"⟩ "zz" 3).emits = []
  ∧ (handleRejectCall wBase ⟨"sA", some "alice"⟩ "zz" 3).w = wBase
  ∧ (handleEndCall wBase ⟨"sA", some "alice"⟩ "zz" 3).w = wBase
  ∧ (handleAcceptCall wBase ⟨"sA", some "alice"⟩ "zz").emits
        = [("sA", OutEvent.callFailedMsg "Call not found")]
  ∧ (handleAcceptCall wBase ⟨"sA", some "alice"⟩ "zz").w = wBase :=
  terminalNoopAsymmetry wBase ⟨"sA", some "alice"⟩ "zz" 3 (by decide)

/-! ### C2 -/

/-- C2 counterexample: alice calls bob, bob accepts (status `accepted`),
and a later `reject_call` still goes through — the durable record moves
from `accepted` to `rejected`, so `initiated→accepted` and
`initiated→rejected` are not the only non-ended transitions. -/
theorem acceptedThenRejected_cex :
    (alGet (handleAcceptCall
        (handleInitiateCall wBase ⟨"sA", some "alice"⟩ "bob" "video" "c1" 1000).w
        ⟨"sB", some "bob"⟩ "c1").w.activeCalls "c1").map CallInfo.status = some "accepted"
  ∧ ((handleAcceptCall
        (handleInitiateCall wBase ⟨"sA", some "alice"⟩ "bob" "video" "c1" 1000).w
        ⟨"sB", some "bob"⟩ "c1").w.dbCalls.map CallRecord.status) = ["accepted"]
  ∧ ((handleRejectCall
        (handleAcceptCall
          (handleInitiateCall wBase ⟨"sA", some "alice"⟩ "bob" "video" "c1" 1000).w
          ⟨"sB", some "bob"⟩ "c1").w
        ⟨"sB", some "bob"⟩ "c1" 5000).w.dbCalls.map CallRecord.status) = ["rejected"] := by
  refine ⟨?_, rfl, rfl⟩
  rfl

/-- C2 amended: `reject_call` (like `end_call`) has no status guard, so on
a live call it performs its transition whatever the current status — in
particular `accepted→rejected` does occur; `accept_call` sets the live and
durable status to `accepted`, `reject_call` sets the durable status to
`rejected` and removes the call, `end_call` sets it to `ended` and removes
the call; removal makes `ended` absorbing (an absent identity is never
re-inserted by these handlers). -/
theorem callStatusTransitions (w : World) (c : Client) (cid : String) (now : Nat)
    (call : CallInfo) (h : alGet w.activeCalls cid = some call) :
    alGet (handleAcceptCall w c cid).w.activeCalls cid
        = some { call with receiverSocketId := c.id, status := "accepted" }
  ∧ (∀ r ∈ (handleAcceptCall w c cid).w.dbCalls, r.id = cid → r.status = "accepted")
  ∧ alGet (handleRejectCall w c cid now).w.activeCalls cid = none
  ∧ (∀ r ∈ (handleRejectCall w c cid now).w.dbCalls, r.id = cid → r.status = "rejected")
  ∧ alGet (handleEndCall w c cid now).w.activeCalls cid = none
  ∧ (∀ r ∈ (handleEndCall w c cid now).w.dbCalls, r.id = cid → r.status = "ended") := by
  refine ⟨?_, ?_, ?_, ?_, ?_, ?_⟩
  · simp [handleAcceptCall, h, alGet_set_self]
  · intro r hm hid
    simp only [handleAcceptCall, h] at hm
    exact mem_dbAcceptCall w.dbCalls cid r hm hid
  · simp [handleRejectCall, h, alGet_erase_self]
  · intro r hm hid
    simp only [handleRejectCall, h] at hm
    exact (mem_dbRejectCall w.dbCalls cid now r hm hid).1
  · simp [handleEndCall, h, alGet_erase_self]
  · intro r hm hid
    simp only [handleEndCall, h] at hm
    exact (mem_dbEndCall w.dbCalls cid now _ r hm hid).1

/-- C2 amended witness: the transitions at the concrete live call `c1`. -/
theorem callStatusTransitions_wit :
    alGet (handleAcceptCall wCall ⟨"sB", some "bob"⟩ "c1").w.activeCalls "c1"
        = some { callAB with receiverSocketId := "sB", status := "accepted" }
  ∧ (∀ r ∈ (handleAcceptCall wCall ⟨"sB", some "bob"⟩ "c1").w.dbCalls,
        r.id = "c1" → r.status = "accepted")
  ∧ alGet (handleRejectCall wCall ⟨"sB", some "bob"⟩ "c1" 9).w.activeCalls "c1" = none
  ∧ (∀ r ∈ (handleRejectCall wCall ⟨"sB", some "bob"⟩ "c1" 9).w.dbCalls,
        r.id = "c1" → r.status = "rejected")
  ∧ alGet (handleEndCall wCall ⟨"sB", some "bob"⟩ "c1" 9).w.activeCalls "c1" = none
  ∧ (∀ r ∈ (handleEndCall wCall ⟨"sB", some "bob"⟩ "c1" 9).w.dbCalls,
        r.id = "c1" → r.status = "ended") :=
  callStatusTransitions wCall ⟨"sB", some "bob"⟩ "c1" 9 callAB (by decide)

/-! ### C3 -/

/-- C3 counterexample: alice calls bob (stored receiver socket `sB`), then
a session `sZ` that belongs to neither participant sends `accept_call`;
the call still transitions to `accepted` and the stored receiver socket is
overwritten with `sZ` — acceptance is not restricted to the receiver's
current session. -/
theorem acceptByStranger_cex :
    (alGet (handleInitiateCall wBase ⟨"sA", some "alice"⟩ "bob" "video" "c1" 1000).w.activeCalls
        "c1").map CallInfo.receiverSocketId = some "sB"
  ∧ (alGet (handleAcceptCall
        (handleInitiateCall wBase ⟨"sA", some "alice"⟩ "bob" "video" "c1" 1000).w
        ⟨"sZ", some "zoe"⟩ "c1").w.activeCalls "c1").map CallInfo.status = some "accepted"
  ∧ (alGet (handleAcceptCall
        (handleInitiateCall wBase ⟨"sA", some "alice"⟩ "bob" "video" "c1" 1000).w
        ⟨"sZ", some "zoe"⟩ "c1").w.activeCalls "c1").map CallInfo.receiverSocketId
        = some "sZ"
  ∧ ((handleAcceptCall
        (handleInitiateCall wBase ⟨"sA", some "alice"⟩ "bob" "video" "c1" 1000).w
        ⟨"sZ", some "zoe"⟩ "c1").w.dbCalls.map CallRecord.status) = ["accepted"] :=
  ⟨rfl, rfl, rfl, rfl⟩

/-- C3 amended: `accept_call` on an existing call transitions it to
`accepted` for ANY acting session (the handler never checks that the
sender is the receiver's current session); the transition updates the
durable record, stores the acting session as the receiver session, and
notifies the caller exactly when the recorded caller session is still
live, then acks the acting session. -/
theorem acceptCallSpec (w : World) (c : Client) (cid : String) (call : CallInfo)
    (h : alGet w.activeCalls cid = some call) :
    alGet (handleAcceptCall w c cid).w.activeCalls cid
        = some { call with receiverSocketId := c.id, status := "accepted" }
  ∧ (∀ r ∈ (handleAcceptCall w c cid).w.dbCalls, r.id = cid → r.status = "accepted")
  ∧ (handleAcceptCall w c cid).emits
        = (if sockOk w.liveSockets call.callerSocketId
           then [(call.callerSocketId, OutEvent.callAccepted cid)] else [])
          ++ [(c.id, OutEvent.callAccepted cid)]
  ∧ (handleAcceptCall w c cid).w.connectedUsers = w.connectedUsers := by
  refine ⟨?_, ?_, ?_, ?_⟩
  · simp [handleAcceptCall, h, alGet_set_self]
  · intro r hm hid
    simp only [handleAcceptCall, h] at hm
    exact mem_dbAcceptCall w.dbCalls cid r hm hid
  · simp [handleAcceptCall, h]
  · simp [handleAcceptCall, h]

/-- C3 amended witness: acceptance of `c1` by a stranger session `sZ`. -/
theorem acceptCallSpec_wit :
    alGet (handleAcceptCall wCall ⟨"sZ", some "zoe"⟩ "c1").w.activeCalls "c1"
        = some { callAB with receiverSocketId := "sZ", status := "accepted" }
  ∧ (∀ r ∈ (handleAcceptCall wCall ⟨"sZ", some "zoe"⟩ "c1").w.dbCalls,
        r.id = "c1" → r.status = "accepted")
  ∧ (handleAcceptCall wCall ⟨"sZ", some "zoe"⟩ "c1").emits
        = (if sockOk wCall.liveSockets callAB.callerSocketId
           then [(callAB.callerSocketId, OutEvent.callAccepted "c1")] else [])
          ++ [("sZ", OutEvent.callAccepted "c1")]
  ∧ (handleAcceptCall wCall ⟨"sZ", some "zoe"⟩ "c1").w.connectedUsers = wCall.connectedUsers :=
  acceptCallSpec wCall ⟨"sZ", some "zoe"⟩ "c1" callAB (by decide)

/-! ### C7 -/

/-- C7 counterexample: on call `c1` (caller socket `sA`, receiver socket
`sB`, both live) the RECEIVER's session sends `webrtc_offer` and the relay
targets the receiver's own socket `sB` — not the other participant's
session `sA`; symmetrically an answer sent from the caller's session is
relayed back to the caller.  So offer/answer targets are fixed by role,
not resolved by comparing the sending session. -/
theorem webrtcOfferTarget_cex :
    (handleWebRTCOffer wCall ⟨"sB", some "bob"⟩ "c1" "sdp").emits
        = [("sB", OutEvent.webrtcOffer "c1" "sdp")]
  ∧ (handleWebRTCAnswer wCall ⟨"sA", some "alice"⟩ "c1" "sdp2").emits
        = [("sA", OutEvent.webrtcAnswer "c1" "sdp2")] :=
  ⟨rfl, rfl⟩

/-- C7 amended: `webrtc_offer` always targets the call's recorded receiver
session and `webrtc_answer` always targets the recorded caller session,
whatever session sends them; only `webrtc_ice_candidate` resolves its
target by comparing the sending session to the recorded caller session.
When the target session is not live, an ICE candidate is dropped silently
while an offer (resp. answer) is answered with `call_failed` reason
"Receiver disconnected" (resp. "Caller disconnected") to the sender; in
every case the state is unchanged (nothing is queued). -/
theorem webrtcRelaySpec (w : World) (c : Client) (cid p : String) (call : CallInfo)
    (h : alGet w.activeCalls cid = some call) :
    handleWebRTCOffer w c cid p
        = (if sockOk w.liveSockets call.receiverSocketId
           then { w := w, emits := [(call.receiverSocketId, OutEvent.webrtcOffer cid p)] }
           else { w := w, emits := [(c.id, OutEvent.callFailedReason "Receiver disconnected")] })
  ∧ handleWebRTCAnswer w c cid p
        = (if sockOk w.liveSockets call.callerSocketId
           then { w := w, emits := [(call.callerSocketId, OutEvent.webrtcAnswer cid p)] }
           else { w := w, emits := [(c.id, OutEvent.callFailedReason "Caller disconnected")] })
  ∧ handleWebRTCIceCandidate w c cid p
        = (if sockOk w.liveSockets
              (if c.id == call.callerSocketId then call.receiverSocketId
               else call.callerSocketId)
           then { w := w,
                  emits := [((if c.id == call.callerSocketId then call.receiverSocketId
                              else call.callerSocketId), OutEvent.webrtcIce cid p)] }
           else { w := w, emits := [] }) := by
  refine ⟨?_, ?_, ?_⟩ <;>
    simp [handleWebRTCOffer, handleWebRTCAnswer, handleWebRTCIceCandidate, h]

/-- C7 amended witness: relays on the concrete call `c1`. -/
theorem webrtcRelaySpec_wit :
    handleWebRTCOffer wCall ⟨"sB", some "bob"⟩ "c1" "sdp"
        = (if sockOk wCall.liveSockets callAB.receiverSocketId
           then { w := wCall, emits := [(callAB.receiverSocketId, OutEvent.webrtcOffer "c1" "sdp")] }
           else { w := wCall,
                  emits := [("sB", OutEvent.callFailedReason "Receiver disconnected")] })
  ∧ handleWebRTCAnswer wCall ⟨"sB", some "bob"⟩ "c1" "sdp"
        = (if sockOk wCall.liveSockets callAB.callerSocketId
           then { w := wCall, emits := [(callAB.callerSocketId, OutEvent.webrtcAnswer "c1" "sdp")] }
           else { w := wCall,
                  emits := [("sB", OutEvent.callFailedReason "Caller disconnected")] })
  ∧ handleWebRTCIceCandidate wCall ⟨"sB", some "bob"⟩ "c1" "sdp"
        = (if sockOk wCall.liveSockets
              (if "sB" == callAB.callerSocketId then callAB.receiverSocketId
               else callAB.callerSocketId)
           then { w := wCall,
                  emits := [((if "sB" == callAB.callerSocketId then callAB.receiverSocketId
                              else callAB.callerSocketId), OutEvent.webrtcIce "c1" "sdp")] }
           else { w := wCall, emits := [] }) :=
  webrtcRelaySpec wCall ⟨"sB", some "bob"⟩ "c1" "sdp" callAB (by decide)

/-! ### C9 -/

/-- C9: `end_call` on a live call writes the durable row with status
`ended`, the end time, and the duration computed at end time as the whole
seconds elapsed since the stored creation time; it emits `call_ended`
exactly to the caller/receiver sockets that are live, removes the call
from the table and touches no presence state. -/
theorem endCallSpec (w : World) (c : Client) (cid : String) (now : Nat) (call : CallInfo)
    (h : alGet w.activeCalls cid = some call) :
    (∀ r ∈ (handleEndCall w c cid now).w.dbCalls, r.id = cid →
        r.status = "ended" ∧ r.endedAt = some now
          ∧ r.duration = some ((now - call.createdAt) / 1000))
  ∧ alGet (handleEndCall w c cid now).w.activeCalls cid = none
  ∧ (handleEndCall w c cid now).emits
        = ([call.callerSocketId, call.receiverSocketId].filter
            (fun s => sockOk w.liveSockets s)).map (fun s => (s, OutEvent.callEnded cid))
  ∧ (handleEndCall w c cid now).w.connectedUsers = w.connectedUsers := by
  refine ⟨?_, ?_, ?_, ?_⟩
  · intro r hm hid
    simp only [handleEndCall, h] at hm
    exact mem_dbEndCall w.dbCalls cid now _ r hm hid
  · simp [handleEndCall, h, alGet_erase_self]
  · simp [handleEndCall, h]
  · simp [handleEndCall, h]

/-- C9 witness: ending `c1` (created at time 0) at time 30000 yields
duration 30 seconds and notifies both live participants. -/
theorem endCallSpec_wit :
    (∀ r ∈ (handleEndCall wCall ⟨"sA", some "alice"⟩ "c1" 30000).w.dbCalls, r.id = "c1" →
        r.status = "ended" ∧ r.endedAt = some 30000
          ∧ r.duration = some ((30000 - callAB.createdAt) / 1000))
  ∧ alGet (handleEndCall wCall ⟨"sA", some "alice"⟩ "c1" 30000).w.activeCalls "c1" = none
  ∧ (handleEndCall wCall ⟨"sA", some "alice"⟩ "c1" 30000).emits
        = ([callAB.callerSocketId, callAB.receiverSocketId].filter
            (fun s => sockOk wCall.liveSockets s)).map (fun s => (s, OutEvent.callEnded "c1"))
  ∧ (handleEndCall wCall ⟨"sA", some "alice"⟩ "c1" 30000).w.connectedUsers
        = wCall.connectedUsers :=
  endCallSpec wCall ⟨"sA", some "alice"⟩ "c1" 30000 callAB (by decide)

/-! ### C8 -/

/-- The text message row created by `send_message`. -/
def textMsgRec (sender receiverId content mid : String) (now : Nat) : MessageRecord :=
  { id := mid, content := content, mtype := "text", fileName := none, fileSize := none,
    fileType := none, senderId := sender, receiverId := receiverId, isRead := false,
    createdAt := now }

/-- The file message row created by `send_file_message`. -/
def fileMsgRec (sender receiverId content fn ft mid : String) (fsz now : Nat) : MessageRecord :=
  { id := mid, content := content, mtype := "file", fileName := some fn, fileSize := some fsz,
    fileType := some ft, senderId := sender, receiverId := receiverId, isRead := false,
    createdAt := now }

/-- C8 counterexample: a successful text `send_message` to an online
receiver acks the sender with the bare persisted message — the
receiver-online flag is absent from the ack (it is `none`, not
`some true`), unlike the file path.  So not every successful send acks
with the receiver-online flag. -/
theorem textAckNoFlag_cex :
    (handleMessage wBase ⟨"sA", some "alice"⟩ "bob" "hi" "m1" 42).emits
      = [("sB", OutEvent.receiveMessage (textMsgRec "alice" "bob" "hi" "m1" 42) true none),
         ("sB", OutEvent.unreadCounts [("alice", 1)]),
         ("sA", OutEvent.messageSent (textMsgRec "alice" "bob" "hi" "m1" 42) none)]
  ∧ (handleFileMessage wBase ⟨"sA", some "alice"⟩ "bob" "u" "f.bin" 7 "bin" "m2" 42).emits
      = [("sB", OutEvent.receiveMessage (fileMsgRec "alice" "bob" "u" "f.bin" "bin" "m2" 7 42)
            true (some true)),
         ("sB", OutEvent.unreadCounts [("alice", 1)]),
         ("sA", OutEvent.messageSent (fileMsgRec "alice" "bob" "u" "f.bin" "bin" "m2" 7 42)
            (some true))] :=
  ⟨rfl, rfl⟩

/-- C8 amended: both send paths persist first and, when the receiver is
reachable, emit the full message plus an unread-count refresh to the
receiver; `send_file_message` acks the sender with the persisted message
together with the receiver-online flag, but `send_message` (text) acks
with the persisted message only — its ack (and its receiver push) carry no
receiver-online flag. -/
theorem messageSendSpec (w : World) (sid sender receiverId content fn ft mid : String)
    (fsz now : Nat) :
    (∀ rsid, alGet w.connectedUsers receiverId = some rsid →
        handleMessage w ⟨sid, some sender⟩ receiverId content mid now
          = { w := { w with
                dbMessages := w.dbMessages ++ [textMsgRec sender receiverId content mid now] },
              emits :=
                [(rsid, OutEvent.receiveMessage
                    (textMsgRec sender receiverId content mid now) true none)]
                ++ sendUnreadCounts
                    { w with dbMessages :=
                        w.dbMessages ++ [textMsgRec sender receiverId content mid now] }
                    receiverId
                ++ [(sid, OutEvent.messageSent
                      (textMsgRec sender receiverId content mid now) none)] }
      ∧ handleFileMessage w ⟨sid, some sender⟩ receiverId content fn fsz ft mid now
          = { w := { w with
                dbMessages :=
                  w.dbMessages ++ [fileMsgRec sender receiverId content fn ft mid fsz now] },
              emits :=
                [(rsid, OutEvent.receiveMessage
                    (fileMsgRec sender receiverId content fn ft mid fsz now) true (some true))]
                ++ sendUnreadCounts
                    { w with dbMessages :=
                        w.dbMessages ++ [fileMsgRec sender receiverId content fn ft mid fsz now] }
                    receiverId
                ++ [(sid, OutEvent.messageSent
                      (fileMsgRec sender receiverId content fn ft mid fsz now) (some true))] })
  ∧ (alGet w.connectedUsers receiverId = none →
        handleMessage w ⟨sid, some sender⟩ receiverId content mid now
          = { w := { w with
                dbMessages := w.dbMessages ++ [textMsgRec sender receiverId content mid now] },
              emits := [(sid, OutEvent.messageSent
                          (textMsgRec sender receiverId content mid now) none)] }
      ∧ handleFileMessage w ⟨sid, some sender⟩ receiverId content fn fsz ft mid now
          = { w := { w with
                dbMessages :=
                  w.dbMessages ++ [fileMsgRec sender receiverId content fn ft mid fsz now] },
              emits := [(sid, OutEvent.messageSent
                          (fileMsgRec sender receiverId content fn ft mid fsz now)
                          (some false))] }) := by
  constructor
  · intro rsid hr
    constructor
    · simp [handleMessage, textMsgRec, hr]
    · simp [handleFileMessage, fileMsgRec, alHas, hr]
  · intro hr
    constructor
    · simp [handleMessage, textMsgRec, hr]
    · simp [handleFileMessage, fileMsgRec, alHas, hr]

/-- C8 amended witness: concrete sends from alice to the online bob. -/
theorem messageSendSpec_wit :
    alGet wBase.connectedUsers "bob" = some "sB"
  ∧ (handleMessage wBase ⟨"sA", some "alice"⟩ "bob" "hi" "m1" 42
        = { w := { wBase with
              dbMessages := wBase.dbMessages ++ [textMsgRec "alice" "bob" "hi" "m1" 42] },
            emits :=
              [("sB", OutEvent.receiveMessage (textMsgRec "alice" "bob" "hi" "m1" 42) true none)]
              ++ sendUnreadCounts
                  { wBase with
                    dbMessages := wBase.dbMessages ++ [textMsgRec "alice" "bob" "hi" "m1" 42] }
                  "bob"
              ++ [("sA", OutEvent.messageSent (textMsgRec "alice" "bob" "hi" "m1" 42) none)] }
      ∧ handleFileMessage wBase ⟨"sA", some "alice"⟩ "bob" "u" "f.bin" 7 "bin" "m2" 42
        = { w := { wBase with
              dbMessages :=
                wBase.dbMessages ++ [fileMsgRec "alice" "bob" "u" "f.bin" "bin" "m2" 7 42] },
            emits :=
              [("sB", OutEvent.receiveMessage
                  (fileMsgRec "alice" "bob" "u" "f.bin" "bin" "m2" 7 42) true (some true))]
              ++ sendUnreadCounts
                  { wBase with
                    dbMessages :=
                      wBase.dbMessages ++ [fileMsgRec "alice" "bob" "u" "f.bin" "bin" "m2" 7 42] }
                  "bob"
              ++ [("sA", OutEvent.messageSent
                    (fileMsgRec "alice" "bob" "u" "f.bin" "bin" "m2" 7 42) (some true))] }) :=
  ⟨rfl, (messageSendSpec wBase "sA" "alice" "bob" "hi" "f.bin" "bin" "m1" 7 42).1 "sB" rfl |>.1,
    (messageSendSpec wBase "sA" "alice" "bob" "u" "f.bin" "bin" "m2" 7 42).1 "sB" rfl |>.2⟩

/-! ### C5 -/

/-- A lone online user. -/
def wSolo : World :=
  { connectedUsers := [("u1", "s1")], userActiveChats := [], activeCalls := [],
    liveSockets := ["s1"], dbCalls := [], dbMessages := [] }

/-- World reached when `u1` initiates a call to themself (nothing in the
gateway forbids `receiverId = callerId`, and the online check passes):
call `c7` has `u1` as both caller and receiver, both sockets `s1`. -/
def wSelf : World := (handleInitiateCall wSolo ⟨"s1", some "u1"⟩ "u1" "audio" "c7" 0).w

/-- C5 counterexample: user `u1` has a live call in which they are both
caller and receiver (created by `initiate_call` targeting themself).
`u1`'s socket `s1` disconnects and `u1` reattaches as `s2` within the
grace period: the grace check is indeed a no-op (the call is not ended),
but because `updateUserSocketInActiveCalls` uses `else if`, only the
caller-side reference moves to `s2`; the receiver-side reference still
holds the dead session `s1` — so not every stored transport-session
reference to that user is updated. -/
theorem staleReceiverOnReconnect_cex :
    (handleDisconnect wSelf "s1").2 = some "u1"
  ∧ gracePeriodFire (handleConnection (handleDisconnect wSelf "s1").1 ⟨"s2", some "u1"⟩).w
        "u1" "s1" 99
      = { w := (handleConnection (handleDisconnect wSelf "s1").1 ⟨"s2", some "u1"⟩).w,
          emits := [] }
  ∧ (alGet (handleConnection (handleDisconnect wSelf "s1").1
        ⟨"s2", some "u1"⟩).w.activeCalls "c7").map CallInfo.callerSocketId = some "s2"
  ∧ (alGet (handleConnection (handleDisconnect wSelf "s1").1
        ⟨"s2", some "u1"⟩).w.activeCalls "c7").map CallInfo.receiverSocketId = some "s1" := by
  refine ⟨rfl, ?_, rfl, rfl⟩
  decide

/-- C5 amended: when a user's session disconnects and the same user
reattaches on a different session id within the grace period, each live
call referencing that user is updated by `updCallSocket`: the caller-side
session reference if the user is the call's caller, otherwise the
receiver-side reference (for a self-call only the caller side moves); the
new binding points at the new session and the scheduled grace check fires
as a no-op, so no call is ended by the disconnect. -/
theorem reconnectWithinGrace (w : World) (u s1 s2 : String) (now : Nat)
    (hbind : findUserBySocket w.connectedUsers s1 = some u)
    (hne : s2 ≠ s1) :
    (handleDisconnect w s1).2 = some u
  ∧ (∀ cid, alGet (handleConnection (handleDisconnect w s1).1 ⟨s2, some u⟩).w.activeCalls cid
        = (alGet w.activeCalls cid).map (updCallSocket u s2))
  ∧ alGet (handleConnection (handleDisconnect w s1).1 ⟨s2, some u⟩).w.connectedUsers u
        = some s2
  ∧ gracePeriodFire (handleConnection (handleDisconnect w s1).1 ⟨s2, some u⟩).w u s1 now
        = { w := (handleConnection (handleDisconnect w s1).1 ⟨s2, some u⟩).w, emits := [] } := by
  refine ⟨hbind, ?_, ?_, ?_⟩
  · intro cid
    simp [handleConnection, handleDisconnect, alGet_update_calls]
  · simp [handleConnection, handleDisconnect, alGet_set_self]
  · simp [gracePeriodFire, handleConnection, handleDisconnect, alGet_set_self, hne]

/-- C5 amended witness: alice reattaches as `sNew` before the grace check
for her old socket `sA` fires; the live call follows her and survives. -/
theorem reconnectWithinGrace_wit :
    (handleDisconnect wCall "sA").2 = some "alice"
  ∧ (∀ cid, alGet (handleConnection (handleDisconnect wCall "sA").1
          ⟨"sNew", some "alice"⟩).w.activeCalls cid
        = (alGet wCall.activeCalls cid).map (updCallSocket "alice" "sNew"))
  ∧ alGet (handleConnection (handleDisconnect wCall "sA").1
        ⟨"sNew", some "alice"⟩).w.connectedUsers "alice" = some "sNew"
  ∧ gracePeriodFire (handleConnection (handleDisconnect wCall "sA").1
        ⟨"sNew", some "alice"⟩).w "alice" "sA" 99
      = { w := (handleConnection (handleDisconnect wCall "sA").1 ⟨"sNew", some "alice"⟩).w,
          emits := [] } :=
  reconnectWithinGrace wCall "alice" "sA" "sNew" 99 (by decide) (by decide)

/-! ### C6 lemmas -/

/-- Number of `call_ended{cid}` events in an emit list. -/
def countEnded (es : List (String × OutEvent)) (cid : String) : Nat :=
  (es.filter (fun e => decide (e.2 = OutEvent.callEnded cid))).length

theorem countEnded_append (a b : List (String × OutEvent)) (cid : String) :
    countEnded (a ++ b) cid = countEnded a cid + countEnded b cid := by
  simp [countEnded, List.filter_append]

theorem alGet_none_of_not_key {α : Type} (l : List (String × α)) (k : String)
    (h : k ∉ l.map Prod.fst) : alGet l k = none := by
  induction l with
  | nil => rfl
  | cons e rest ih =>
    simp only [List.map_cons, List.mem_cons] at h
    push_neg at h
    have hne : e.1 ≠ k := fun hh => h.1 hh.symm
    simp [alGet, hne, ih h.2]

theorem key_mem_of_filter {α : Type} (l : List (String × α)) (p : String × α → Bool)
    (k : String) (h : k ∈ (l.filter p).map Prod.fst) : k ∈ l.map Prod.fst := by
  rcases List.mem_map.mp h with ⟨e, he, rfl⟩
  exact List.mem_map.mpr ⟨e, (List.mem_filter.mp he).1, rfl⟩

theorem endUserCalls_fst (u : String) (now : Nat) (live : List String)
    (entries : List (String × CallInfo)) (db : List CallRecord) :
    (endUserCalls u now live entries db).1
      = entries.filter (fun e => !(involvesUser u e.2)) := by
  induction entries generalizing db with
  | nil => rfl
  | cons e rest ih =>
    by_cases h : involvesUser u e.2
    · simp [endUserCalls, h, ih]
    · simp [endUserCalls, h, ih]

theorem alGet_filter_involved (u cid : String) (call : CallInfo)
    (entries : List (String × CallInfo)) (hnd : (entries.map Prod.fst).Nodup)
    (h : alGet entries cid = some call) (hin : involvesUser u call = true) :
    alGet (entries.filter (fun e => !(involvesUser u e.2))) cid = none := by
  induction entries with
  | nil => simp [alGet] at h
  | cons e rest ih =>
    simp only [List.map_cons, List.nodup_cons] at hnd
    by_cases hk : e.1 = cid
    · have hcall : e.2 = call := by
        have := h
        simp only [alGet, hk, if_pos] at this
        exact Option.some.inj this
      have hinv : involvesUser u e.2 = true := by rw [hcall]; exact hin
      rw [List.filter_cons]
      simp only [hinv, Bool.not_true, Bool.false_eq_true, if_false]
      apply alGet_none_of_not_key
      intro hmem
      exact (hk ▸ hnd.1) (key_mem_of_filter rest _ cid hmem)
    · have h' : alGet rest cid = some call := by
        have := h
        simp only [alGet, hk, if_neg, if_false] at this
        exact this
      rw [List.filter_cons]
      by_cases hinv : involvesUser u e.2
      · simp only [hinv, Bool.not_true, Bool.false_eq_true, if_false]
        exact ih hnd.2 h'
      · simp only [Bool.not_eq_true] at hinv
        simp only [hinv, Bool.not_false, if_true, alGet, hk, if_neg, if_false]
        simpa [hk] using ih hnd.2 h'

theorem endUserCalls_emits_live (u : String) (now : Nat) (live : List String)
    (entries : List (String × CallInfo)) (db : List CallRecord) :
    ∀ x ∈ (endUserCalls u now live entries db).2.2, sockOk live x.1 = true := by
  induction entries generalizing db with
  | nil => intro x hx; simp [endUserCalls] at hx
  | cons e rest ih =>
    intro x hx
    by_cases h : involvesUser u e.2
    · simp only [endUserCalls, h, if_pos] at hx
      rcases List.mem_append.mp hx with h1 | h2
      · by_cases hs : sockOk live (otherSock u e.2)
        · simp only [hs, if_pos, List.mem_singleton] at h1
          rw [h1]
          exact hs
        · simp [hs] at h1
      · exact ih _ x h2
    · simp only [endUserCalls, h] at hx
      exact ih db x hx

theorem endUserCalls_count_zero (u : String) (now : Nat) (live : List String)
    (entries : List (String × CallInfo)) (db : List CallRecord) (cid : String)
    (h : cid ∉ entries.map Prod.fst) :
    countEnded (endUserCalls u now live entries db).2.2 cid = 0 := by
  induction entries generalizing db with
  | nil => rfl
  | cons e rest ih =>
    simp only [List.map_cons, List.mem_cons] at h
    push_neg at h
    have hne : ¬(e.1 = cid) := fun hh => h.1 hh.symm
    by_cases hi : involvesUser u e.2
    · simp only [endUserCalls, hi, if_pos]
      rw [countEnded_append]
      have h1 : countEnded
          (if sockOk live (otherSock u e.2)
           then [(otherSock u e.2, OutEvent.callEnded e.1)] else []) cid = 0 := by
        by_cases hs : sockOk live (otherSock u e.2) <;> simp [countEnded, hs, hne]
      rw [h1, ih _ h.2]
    · simp only [endUserCalls, hi]
      exact ih db h.2

theorem endUserCalls_count_one (u : String) (now : Nat) (live : List String)
    (entries : List (String × CallInfo)) (db : List CallRecord) (cid : String)
    (call : CallInfo) (hnd : (entries.map Prod.fst).Nodup)
    (h : alGet entries cid = some call) (hin : involvesUser u call = true) :
    countEnded (endUserCalls u now live entries db).2.2 cid
      = if sockOk live (otherSock u call) then 1 else 0 := by
  induction entries generalizing db with
  | nil => simp [alGet] at h
  | cons e rest ih =>
    simp only [List.map_cons, List.nodup_cons] at hnd
    by_cases hk : e.1 = cid
    · have hcall : e.2 = call := by
        have := h
        simp only [alGet, hk, if_pos] at this
        exact Option.some.inj this
      have hinv : involvesUser u e.2 = true := by rw [hcall]; exact hin
      simp only [endUserCalls, hinv, if_pos]
      rw [countEnded_append,
        endUserCalls_count_zero u now live rest _ cid (hk ▸ hnd.1), ← hcall]
      by_cases hs : sockOk live (otherSock u e.2)
      · simp [countEnded, hs, hk]
      · simp [countEnded, hs]
    · have h' : alGet rest cid = some call := by
        have := h
        simp only [alGet, hk, if_neg, if_false] at this
        exact this
      by_cases hi : involvesUser u e.2
      · simp only [endUserCalls, hi, if_pos]
        rw [countEnded_append]
        have h0 : countEnded
            (if sockOk live (otherSock u e.2)
             then [(otherSock u e.2, OutEvent.callEnded e.1)] else []) cid = 0 := by
          by_cases hs : sockOk live (otherSock u e.2) <;> simp [countEnded, hs, hk]
        rw [h0, ih _ hnd.2 h']
        simp
      · simp only [endUserCalls, hi]
        exact ih db hnd.2 h'

theorem dbEndProp_pres (cid : String) (now : Nat) (db : List CallRecord) (k : String)
    (hP : ∀ r ∈ db, r.id = cid → r.status = "ended" ∧ r.endedAt = some now) :
    ∀ r ∈ dbEndByDisconnect db k now, r.id = cid →
      r.status = "ended" ∧ r.endedAt = some now := by
  intro r hm hid
  rcases List.mem_map.mp hm with ⟨r0, hr0, hr⟩
  by_cases h : r0.id = k
  · simp only [h, if_pos] at hr
    rw [← hr]
    exact ⟨rfl, rfl⟩
  · simp only [h, if_neg, if_false] at hr
    subst hr
    exact hP r0 hr0 hid

theorem dbEndProp_est (cid : String) (now : Nat) (db : List CallRecord) :
    ∀ r ∈ dbEndByDisconnect db cid now, r.id = cid →
      r.status = "ended" ∧ r.endedAt = some now := by
  intro r hm hid
  rcases List.mem_map.mp hm with ⟨r0, hr0, hr⟩
  by_cases h : r0.id = cid
  · simp only [h, if_pos] at hr
    rw [← hr]
    exact ⟨rfl, rfl⟩
  · simp only [h, if_neg, if_false] at hr
    subst hr
    exact absurd hid h

theorem endUserCalls_db_pres (u : String) (now : Nat) (live : List String)
    (entries : List (String × CallInfo)) (db : List CallRecord) (cid : String)
    (hP : ∀ r ∈ db, r.id = cid → r.status = "ended" ∧ r.endedAt = some now) :
    ∀ r ∈ (endUserCalls u now live entries db).2.1, r.id = cid →
      r.status = "ended" ∧ r.endedAt = some now := by
  induction entries generalizing db with
  | nil => exact hP
  | cons e rest ih =>
    by_cases h : involvesUser u e.2
    · simp only [endUserCalls, h, if_pos]
      exact ih _ (dbEndProp_pres cid now db e.1 hP)
    · simp only [endUserCalls, h]
      exact ih db hP

theorem endUserCalls_db_ended (u : String) (now : Nat) (live : List String)
    (entries : List (String × CallInfo)) (db : List CallRecord) (cid : String)
    (call : CallInfo) (h : alGet entries cid = some call)
    (hin : involvesUser u call = true) :
    ∀ r ∈ (endUserCalls u now live entries db).2.1, r.id = cid →
      r.status = "ended" ∧ r.endedAt = some now := by
  induction entries generalizing db with
  | nil => simp [alGet] at h
  | cons e rest ih =>
    by_cases hk : e.1 = cid
    · have hcall : e.2 = call := by
        have := h
        simp only [alGet, hk, if_pos] at this
        exact Option.some.inj this
      have hinv : involvesUser u e.2 = true := by rw [hcall]; exact hin
      simp only [endUserCalls, hinv, if_pos]
      exact endUserCalls_db_pres u now live rest _ cid (hk ▸ dbEndProp_est cid now db)
    · have h' : alGet rest cid = some call := by
        have := h
        simp only [alGet, hk, if_neg, if_false] at this
        exact this
      by_cases hi : involvesUser u e.2
      · simp only [endUserCalls, hi, if_pos]
        exact ih (dbEndByDisconnect db e.1 now) h'
      · simp only [endUserCalls, hi]
        exact ih db h'

/-! ### C6 -/

/-- C6: if the grace-period check fires while the user's presence binding
still points at the closed session (no reattachment), the user is
unbound, the active-chat entry is cleared, every live call involving the
user is removed and durably marked ended with the end time, `call_ended`
for each such call is emitted exactly once when the counterparty's
recorded socket is live and not at all otherwise, and every emitted event
targets a live socket. -/
theorem gracePeriodExpiry (w : World) (u s1 : String) (now : Nat)
    (h1 : alGet w.connectedUsers u = some s1)
    (hnd : (w.activeCalls.map Prod.fst).Nodup) :
    alGet (gracePeriodFire w u s1 now).w.connectedUsers u = none
  ∧ alGet (gracePeriodFire w u s1 now).w.userActiveChats u = none
  ∧ (∀ cid call, alGet w.activeCalls cid = some call → involvesUser u call = true →
        alGet (gracePeriodFire w u s1 now).w.activeCalls cid = none
      ∧ (∀ r ∈ (gracePeriodFire w u s1 now).w.dbCalls, r.id = cid →
            r.status = "ended" ∧ r.endedAt = some now)
      ∧ countEnded (gracePeriodFire w u s1 now).emits cid
            = if sockOk w.liveSockets (otherSock u call) then 1 else 0)
  ∧ (∀ x ∈ (gracePeriodFire w u s1 now).emits, sockOk w.liveSockets x.1 = true) := by
  have hg : gracePeriodFire w u s1 now
      = handleUserDisconnectFromCalls
          { w with connectedUsers := alErase w.connectedUsers u,
                   userActiveChats := alErase w.userActiveChats u } u now := by
    simp [gracePeriodFire, h1]
  rw [hg]
  refine ⟨?_, ?_, ?_, ?_⟩
  · simp [handleUserDisconnectFromCalls, alGet_erase_self]
  · simp [handleUserDisconnectFromCalls, alGet_erase_self]
  · intro cid call hc hin
    refine ⟨?_, ?_, ?_⟩
    · simp only [handleUserDisconnectFromCalls]
      rw [endUserCalls_fst]
      exact alGet_filter_involved u cid call w.activeCalls hnd hc hin
    · simp only [handleUserDisconnectFromCalls]
      exact endUserCalls_db_ended u now w.liveSockets w.activeCalls w.dbCalls cid call hc hin
    · simp only [handleUserDisconnectFromCalls]
      exact endUserCalls_count_one u now w.liveSockets w.activeCalls w.dbCalls cid call
        hnd hc hin
  · simp only [handleUserDisconnectFromCalls]
    exact endUserCalls_emits_live u now w.liveSockets w.activeCalls w.dbCalls

/-- C6 witness: alice's grace period expires while her call `c1` with bob
is live; presence and active chat are cleared, `c1` is ended once, and bob
(the live counterparty) is notified exactly once. -/
theorem gracePeriodExpiry_wit :
    alGet (gracePeriodFire wCall "alice" "sA" 77).w.connectedUsers "alice" = none
  ∧ alGet (gracePeriodFire wCall "alice" "sA" 77).w.userActiveChats "alice" = none
  ∧ (∀ cid call, alGet wCall.activeCalls cid = some call →
        involvesUser "alice" call = true →
        alGet (gracePeriodFire wCall "alice" "sA" 77).w.activeCalls cid = none
      ∧ (∀ r ∈ (gracePeriodFire wCall "alice" "sA" 77).w.dbCalls, r.id = cid →
            r.status = "ended" ∧ r.endedAt = some 77)
      ∧ countEnded (gracePeriodFire wCall "alice" "sA" 77).emits cid
            = if sockOk wCall.liveSockets (otherSock "alice" call) then 1 else 0)
  ∧ (∀ x ∈ (gracePeriodFire wCall "alice" "sA" 77).emits,
        sockOk wCall.liveSockets x.1 = true) :=
  gracePeriodExpiry wCall "alice" "sA" 77 (by decide) (by decide)

end Tbk
